import Mathlib

/-!
Shallow embedding of the gw-project wallet platform core:
the wallet service layer (deposit / withdraw / exchange / authentication),
the postgres storage layer (ExecuteExchange and the single-statement
methods), the Kafka large-transfer producer, the TTL rate cache, the
notification consumer (processMessages / flushBatch) and the MongoDB
document sink.  Monetary amounts (Go float64) are modelled as exact
rationals; wall-clock instants as integers; currencies and statuses as
the strings the Go code uses.
-/

namespace GW

/-- Transaction kind constants from storages/model.go. -/
def TransactionTypeDeposit : String := "deposit"

def TransactionTypeWithdraw : String := "withdraw"

def TransactionTypeExchange : String := "exchange"

/-- Transaction status constants from storages/model.go. -/
def TransactionStatusCompleted : String := "completed"

/-- Audit record of a money-moving event (storages.Transaction).
Database ids and timestamps are omitted: no claim mentions them. -/
structure Transaction where
  userID : Int
  type : String
  fromCurrency : String
  toCurrency : String
  fromAmount : ℚ
  toAmount : ℚ
  exchangeRate : ℚ
  status : String
deriving DecidableEq, Repr

/-- The relational store owned by the wallet: one amount per
(user, currency) pair plus the append-only transactions table. -/
structure WalletState where
  balances : Int → String → ℚ
  transactions : List Transaction

/-- Pointwise update of one (user, currency) balance cell. -/
def setBalance (b : Int → String → ℚ) (userID : Int) (currency : String) (v : ℚ) :
    Int → String → ℚ :=
  fun u c => if u = userID then (if c = currency then v else b u c) else b u c

/-- storages.UserBalances: the three per-currency amounts returned to callers. -/
structure UserBalances where
  usd : ℚ
  eur : ℚ
  rub : ℚ
deriving DecidableEq, Repr

/-- GetUserBalances: read the three supported balances of one user. -/
def getUserBalances (st : WalletState) (userID : Int) : UserBalances :=
  { usd := st.balances userID "USD"
    eur := st.balances userID "EUR"
    rub := st.balances userID "RUB" }

/-- One SQL statement executed inside the explicit DB transaction of
ExecuteExchange (model.go).  The updates there are relative
(amount = amount + delta); the select takes a FOR UPDATE row lock. -/
inductive SqlStep where
  | selectForUpdate (userID : Int) (currency : String)
  | updateBalanceDelta (userID : Int) (currency : String) (delta : ℚ)
  | insertTransaction (t : Transaction)
deriving DecidableEq, Repr

/-- Isolation level of an explicit store transaction. -/
inductive Isolation where
  | serializable
  | readCommitted
deriving DecidableEq, Repr

/-- Record of the one explicit BEGIN ... COMMIT/ROLLBACK block run by
ExecuteExchange: its isolation level, the statements issued inside it, and
whether it committed. -/
structure ExchangeTxRun where
  isolation : Isolation
  steps : List SqlStep
  committed : Bool
deriving DecidableEq, Repr

/-- ExecuteExchange (storages/postgres, model.go lines 220-293): inside one
serializable transaction, SELECT the from-currency balance FOR UPDATE,
check sufficiency, apply the two relative UPDATEs, INSERT the completed
exchange transaction, COMMIT.  Returns the store outcome together with the
trace of the transaction block. -/
def ExecuteExchange (st : WalletState) (userID : Int) (fromCurrency toCurrency : String)
    (fromAmount toAmount rate : ℚ) : Except String WalletState × ExchangeTxRun :=
  let fromBalance := st.balances userID fromCurrency
  if fromBalance < fromAmount then
    (Except.error "insufficient funds",
     { isolation := Isolation.serializable
       steps := [SqlStep.selectForUpdate userID fromCurrency]
       committed := false })
  else
    let t : Transaction :=
      { userID := userID
        type := TransactionTypeExchange
        fromCurrency := fromCurrency
        toCurrency := toCurrency
        fromAmount := fromAmount
        toAmount := toAmount
        exchangeRate := rate
        status := TransactionStatusCompleted }
    let b1 := setBalance st.balances userID fromCurrency (fromBalance - fromAmount)
    let b2 := setBalance b1 userID toCurrency (b1 userID toCurrency + toAmount)
    (Except.ok { balances := b2, transactions := st.transactions ++ [t] },
     { isolation := Isolation.serializable
       steps := [SqlStep.selectForUpdate userID fromCurrency,
                 SqlStep.updateBalanceDelta userID fromCurrency (-fromAmount),
                 SqlStep.updateBalanceDelta userID toCurrency toAmount,
                 SqlStep.insertTransaction t]
       committed := true })

/-- The exchange transaction the spec describes for C1, built from the
spec words alone: SELECT BOTH balance rows FOR UPDATE in ascending
currency-code order, then the two updates and the insert.  Used only to
compare against the trace the source actually emits. -/
def specExchangeSteps (userID : Int) (fromCurrency toCurrency : String)
    (fromAmount toAmount rate : ℚ) : List SqlStep :=
  let lo := if fromCurrency < toCurrency then fromCurrency else toCurrency
  let hi := if fromCurrency < toCurrency then toCurrency else fromCurrency
  [SqlStep.selectForUpdate userID lo,
   SqlStep.selectForUpdate userID hi,
   SqlStep.updateBalanceDelta userID fromCurrency (-fromAmount),
   SqlStep.updateBalanceDelta userID toCurrency toAmount,
   SqlStep.insertTransaction
     { userID := userID
       type := TransactionTypeExchange
       fromCurrency := fromCurrency
       toCurrency := toCurrency
       fromAmount := fromAmount
       toAmount := toAmount
       exchangeRate := rate
       status := TransactionStatusCompleted }]

/-- Number of FOR UPDATE row locks taken in a trace. -/
def countSelectsForUpdate (steps : List SqlStep) : Nat :=
  (steps.filter fun s =>
    match s with
    | SqlStep.selectForUpdate _ _ => true
    | _ => false).length

/-- One call issued by the service layer to the relational store.  Plain
statements (GetBalance / UpdateBalance / CreateTransaction /
GetAllBalances) each run in their own implicit transaction; the only
explicit transaction block in the wallet storage layer is the one opened
by ExecuteExchange, recorded as txBlock. -/
inductive StoreCall where
  | selectBalance (userID : Int) (currency : String)
  | updateBalanceStmt (userID : Int) (currency : String) (newAmount : ℚ)
  | insertTransactionStmt (t : Transaction)
  | selectAllBalances (userID : Int)
  | txBlock (iso : Isolation) (steps : List SqlStep)
deriving DecidableEq, Repr

/-- Whether a store call is one explicit transaction containing both a
balance update and a transaction-row insert.  This is the spec's phrase
for C2 - "the balance update and the insertion of the audit record happen
in a single store transaction" - written over the call trace. -/
def updateAndInsertInOneStoreTransaction (calls : List StoreCall) : Bool :=
  calls.any fun c =>
    match c with
    | StoreCall.txBlock _ steps =>
        (steps.any fun s =>
          match s with
          | SqlStep.updateBalanceDelta _ _ _ => true
          | _ => false) &&
        (steps.any fun s =>
          match s with
          | SqlStep.insertTransaction _ => true
          | _ => false)
    | _ => false

/-- Kafka message as written by the producer: key plus the JSON payload
fields of LargeTransferMessage. -/
structure KafkaOutMessage where
  key : String
  userID : Int
  type : String
  fromCurrency : String
  toCurrency : String
  amount : ℚ
  timestamp : Int
deriving DecidableEq, Repr

/-- Kafka producer state: the configured large-transfer threshold. -/
structure Producer where
  threshold : ℚ
deriving DecidableEq, Repr

/-- SendLargeTransferNotification (kafka producer): drop silently (nil
error) when amount < threshold; otherwise build the message keyed
"user_<id>" and write it.  writerOk models whether the broker write
succeeds; on broker failure the producer returns an error (which every
caller merely logs). -/
def SendLargeTransferNotification (p : Producer) (writerOk : Bool) (userID : Int)
    (transferType fromCurrency toCurrency : String) (amount : ℚ) (now : Int) :
    Option KafkaOutMessage × Option String :=
  if amount < p.threshold then
    (none, none)
  else
    let message : KafkaOutMessage :=
      { key := "user_" ++ toString userID
        userID := userID
        type := transferType
        fromCurrency := fromCurrency
        toCurrency := toCurrency
        amount := amount
        timestamp := now }
    if writerOk then (some message, none)
    else (none, some "failed to send message")

/-- Result of one service-layer wallet operation: the value returned to
the HTTP handler, the resulting store state, the trace of store calls
issued, and the Kafka messages actually written. -/
structure ServiceRun where
  result : Except String UserBalances
  state : WalletState
  storeCalls : List StoreCall
  kafka : List KafkaOutMessage

/-- Deposit (wallet_service.go lines 116-156): validate amount, read the
balance row, UPDATE it to the read value plus amount, INSERT a completed
deposit transaction (failure there is only logged), send the Kafka
notification (failure only logged), and re-read all balances. -/
def Deposit (st : WalletState) (userID : Int) (currency : String) (amount : ℚ)
    (p : Producer) (writerOk : Bool) (now : Int) : ServiceRun :=
  if amount ≤ 0 then
    { result := Except.error "amount must be positive"
      state := st
      storeCalls := []
      kafka := [] }
  else
    let balance := st.balances userID currency
    let newAmount := balance + amount
    let t : Transaction :=
      { userID := userID
        type := TransactionTypeDeposit
        fromCurrency := currency
        toCurrency := currency
        fromAmount := amount
        toAmount := amount
        exchangeRate := 1
        status := TransactionStatusCompleted }
    let st2 : WalletState :=
      { balances := setBalance st.balances userID currency newAmount
        transactions := st.transactions ++ [t] }
    let sent := SendLargeTransferNotification p writerOk userID "deposit"
      currency currency amount now
    { result := Except.ok (getUserBalances st2 userID)
      state := st2
      storeCalls := [StoreCall.selectBalance userID currency,
                     StoreCall.updateBalanceStmt userID currency newAmount,
                     StoreCall.insertTransactionStmt t,
                     StoreCall.selectAllBalances userID]
      kafka := sent.fst.toList }

/-- Withdraw (wallet_service.go lines 159-204): validate amount, read the
balance row, reject with insufficient funds when balance < amount,
otherwise UPDATE the row to balance - amount, INSERT a completed withdraw
transaction, notify Kafka, and re-read all balances. -/
def Withdraw (st : WalletState) (userID : Int) (currency : String) (amount : ℚ)
    (p : Producer) (writerOk : Bool) (now : Int) : ServiceRun :=
  if amount ≤ 0 then
    { result := Except.error "amount must be positive"
      state := st
      storeCalls := []
      kafka := [] }
  else if st.balances userID currency < amount then
    { result := Except.error "insufficient funds"
      state := st
      storeCalls := [StoreCall.selectBalance userID currency]
      kafka := [] }
  else
    let balance := st.balances userID currency
    let newAmount := balance - amount
    let t : Transaction :=
      { userID := userID
        type := TransactionTypeWithdraw
        fromCurrency := currency
        toCurrency := currency
        fromAmount := amount
        toAmount := amount
        exchangeRate := 1
        status := TransactionStatusCompleted }
    let st2 : WalletState :=
      { balances := setBalance st.balances userID currency newAmount
        transactions := st.transactions ++ [t] }
    let sent := SendLargeTransferNotification p writerOk userID "withdraw"
      currency currency amount now
    { result := Except.ok (getUserBalances st2 userID)
      state := st2
      storeCalls := [StoreCall.selectBalance userID currency,
                     StoreCall.updateBalanceStmt userID currency newAmount,
                     StoreCall.insertTransactionStmt t,
                     StoreCall.selectAllBalances userID]
      kafka := sent.fst.toList }

/-- Result of one ExchangeCurrency call, additionally recording how many
times the service invoked the store's ExecuteExchange. -/
structure ExchangeRun where
  result : Except String (ℚ × UserBalances)
  state : WalletState
  storeAttempts : Nat
  storeCalls : List StoreCall
  kafka : List KafkaOutMessage

/-- ExchangeCurrency (wallet_service.go lines 228-277): validate amount
and currency pair, compute exchangedAmount = rate * amount, call the
store's ExecuteExchange exactly once, surface any store error with no
retry, then notify Kafka and re-read balances.  serFail k tells whether
the store would report a serialization failure on its k-th invocation;
the code only ever makes invocation 0. -/
def ExchangeCurrency (st : WalletState) (userID : Int) (fromCurrency toCurrency : String)
    (amount rate : ℚ) (serFail : Nat → Bool) (p : Producer) (writerOk : Bool)
    (now : Int) : ExchangeRun :=
  if amount ≤ 0 then
    { result := Except.error "amount must be positive"
      state := st
      storeAttempts := 0
      storeCalls := []
      kafka := [] }
  else if fromCurrency = toCurrency then
    { result := Except.error "from_currency and to_currency must be different"
      state := st
      storeAttempts := 0
      storeCalls := []
      kafka := [] }
  else
    let exchangedAmount := rate * amount
    if serFail 0 then
      { result := Except.error "failed to execute exchange: serialization failure"
        state := st
        storeAttempts := 1
        storeCalls := [StoreCall.txBlock Isolation.serializable []]
        kafka := [] }
    else
      match ExecuteExchange st userID fromCurrency toCurrency amount exchangedAmount rate with
      | (Except.error e, run) =>
          { result := Except.error ("failed to execute exchange: " ++ e)
            state := st
            storeAttempts := 1
            storeCalls := [StoreCall.txBlock run.isolation run.steps]
            kafka := [] }
      | (Except.ok st1, run) =>
          let sent := SendLargeTransferNotification p writerOk userID "exchange"
            fromCurrency toCurrency amount now
          { result := Except.ok (exchangedAmount, getUserBalances st1 userID)
            state := st1
            storeAttempts := 1
            storeCalls := [StoreCall.txBlock run.isolation run.steps,
                           StoreCall.selectAllBalances userID]
            kafka := sent.fst.toList }

/-- User identity record (storages.User), restricted to the fields the
authentication path reads. -/
structure User where
  username : String
  passwordHash : String
deriving DecidableEq, Repr

/-- AuthenticateUser (wallet_service.go lines 77-91).  lookupUser is the
result of GetUserByUsername; verify models bcrypt.CompareHashAndPassword.
The second component counts how many password-hash comparisons were
performed: the source returns early with zero comparisons when the user
is absent. -/
def AuthenticateUser (lookupUser : Option User) (verify : String → String → Bool)
    (password : String) : Except String User × Nat :=
  match lookupUser with
  | none => (Except.error "invalid username or password", 0)
  | some user =>
      if verify user.passwordHash password then (Except.ok user, 1)
      else (Except.error "invalid username or password", 1)

/-- In-memory TTL cache of the full rate table (cache.RatesCache).  The
map is an association list keyed "FROM_TO"; lastUp is the instant of the
last Set; the time unit is opaque (Go nanoseconds). -/
structure RatesCache where
  rates : List (String × ℚ)
  ttl : Int
  lastUp : Int
deriving DecidableEq, Repr

namespace RatesCache

/-- Set: replace the whole map and stamp lastUp = now. -/
def set (c : RatesCache) (m : List (String × ℚ)) (now : Int) : RatesCache :=
  { c with rates := m, lastUp := now }

/-- Get: when the TTL has lapsed return (nil, false); otherwise return a
copy of the map and true. -/
def get (c : RatesCache) (now : Int) : Option (List (String × ℚ)) × Bool :=
  if c.ttl < now - c.lastUp then (none, false)
  else (some c.rates, true)

/-- GetRate: when the TTL has lapsed return (0, false); otherwise look up
the composite key, returning the Go zero value 0 with false when absent. -/
def getRate (c : RatesCache) (fromCurrency toCurrency : String) (now : Int) : ℚ × Bool :=
  if c.ttl < now - c.lastUp then (0, false)
  else
    match (c.rates.lookup (fromCurrency ++ "_" ++ toCurrency)) with
    | some r => (r, true)
    | none => (0, false)

end RatesCache

/-- Transfer status constants of the notification service (part_003). -/
def StatusProcessed : String := "processed"

def StatusFailed : String := "failed"

/-- storages.LargeTransfer: the archived high-value event document.  The
MongoDB object id is omitted (server-assigned, mentioned by no claim). -/
structure LargeTransfer where
  userID : Int
  type : String
  fromCurrency : String
  toCurrency : String
  amount : ℚ
  timestamp : Int
  processedAt : Int
  status : String
  errorMessage : String
deriving DecidableEq, Repr

/-- The document store: the large_transfers collection as an insertion
ordered list of documents. -/
structure MongoStore where
  docs : List LargeTransfer
deriving DecidableEq, Repr

/-- Stamp applied by both save paths before insertion: processing time
and status = processed. -/
def stampProcessed (t : LargeTransfer) (now : Int) : LargeTransfer :=
  { t with processedAt := now, status := StatusProcessed }

/-- SaveTransfer (mongodb/methods.go lines 15-33): stamp then InsertOne. -/
def SaveTransfer (s : MongoStore) (t : LargeTransfer) (now : Int) : MongoStore :=
  { docs := s.docs ++ [stampProcessed t now] }

/-- SaveTransferBatch (mongodb/methods.go lines 36-62): empty batches are
a no-op; otherwise stamp every document with the same instant and
InsertMany. -/
def SaveTransferBatch (s : MongoStore) (ts : List LargeTransfer) (now : Int) : MongoStore :=
  if ts = [] then s
  else { docs := s.docs ++ ts.map (fun t => stampProcessed t now) }

/-- storages.Statistics as filled in by the aggregation. -/
structure Statistics where
  totalProcessed : Nat
  totalFailed : Nat
  averageAmount : ℚ
  totalAmount : ℚ
  lastProcessedAt : Int
deriving DecidableEq, Repr

/-- GetStatistics (mongodb/methods.go lines 131-194): one aggregation
group over the whole collection counting per-status documents, summing
and averaging amounts and taking the newest processing time; an empty
collection produces the zero-valued record. -/
def GetStatistics (s : MongoStore) : Statistics :=
  if s.docs = [] then
    { totalProcessed := 0, totalFailed := 0, averageAmount := 0
      totalAmount := 0, lastProcessedAt := 0 }
  else
    let total : ℚ := (s.docs.map (fun d => d.amount)).sum
    { totalProcessed := (s.docs.filter (fun d => d.status == StatusProcessed)).length
      totalFailed := (s.docs.filter (fun d => d.status == StatusFailed)).length
      averageAmount := total / (s.docs.length : ℚ)
      totalAmount := total
      lastProcessedAt := (s.docs.map (fun d => d.processedAt)).foldl max 0 }

/-- The document stores reachable by the write paths of the notification
storage layer: the empty collection, grown only by SaveTransfer and
SaveTransferBatch. -/
inductive Reaches : MongoStore → Prop where
  | init : Reaches { docs := [] }
  | saveOne {s : MongoStore} (t : LargeTransfer) (now : Int) :
      Reaches s → Reaches (SaveTransfer s t now)
  | saveBatch {s : MongoStore} (ts : List LargeTransfer) (now : Int) :
      Reaches s → Reaches (SaveTransferBatch s ts now)

/-- storages.KafkaMessage: the parsed JSON payload of a log message. -/
structure KafkaMessage where
  userID : Int
  type : String
  fromCurrency : String
  toCurrency : String
  amount : ℚ
  timestamp : Int
deriving DecidableEq, Repr

/-- A fetched log message: its offset and its payload, where none models
a value that json.Unmarshal rejects. -/
structure KMessage where
  offset : Int
  payload : Option KafkaMessage
deriving DecidableEq, Repr

/-- parseMessage (part_004 lines 430-446): unmarshal the payload and copy
its fields into a LargeTransfer whose remaining fields keep their Go zero
values. -/
def parseMessage (msg : KMessage) : Except String LargeTransfer :=
  match msg.payload with
  | none => Except.error "failed to unmarshal message"
  | some k =>
      Except.ok
        { userID := k.userID
          type := k.type
          fromCurrency := k.fromCurrency
          toCurrency := k.toCurrency
          amount := k.amount
          timestamp := k.timestamp
          processedAt := 0
          status := ""
          errorMessage := "" }

/-- The consumer-owned mutable state: the sink collection, the offset
commit calls made so far (each call listing the offsets it covered) and
the two statistics counters. -/
structure ConsumerState where
  sink : MongoStore
  commits : List (List Int)
  messagesProcessed : Nat
  messagesFailed : Nat
deriving DecidableEq, Repr

/-- Index of the first successful SaveTransferBatch attempt, scanning
attempts start, start+1, ... over the given budget. -/
def firstSuccessFrom (saveOk : Nat → Bool) (start : Nat) : Nat → Option Nat
  | 0 => none
  | Nat.succ n =>
      if saveOk start then some start else firstSuccessFrom saveOk (start + 1) n

/-- flushBatch (part_004 lines 449-489): an empty batch is a no-op.
Otherwise try SaveTransferBatch up to retryAttempts times, sleeping the
fixed retryDelay after every failed attempt except the last.  When an
attempt succeeds, commit all covered offsets in one CommitMessages call
(commitOk models broker success; a commit error is logged and processing
stats are then skipped).  When every attempt fails, increment the failed
counter and return without committing.  Go quirk kept: with
retryAttempts = 0 the loop never runs, err stays nil, and the code
commits without having saved.  Returns the new state, the number of save
attempts made and the list of sleep durations. -/
def flushBatch (retryAttempts : Nat) (retryDelay : Int) (saveOk : Nat → Bool)
    (commitOk : Bool) (cs : ConsumerState) (batch : List LargeTransfer)
    (msgs : List KMessage) (now : Int) : ConsumerState × Nat × List Int :=
  if batch = [] then (cs, 0, [])
  else
    match firstSuccessFrom saveOk 0 retryAttempts with
    | some k =>
        let cs1 := { cs with sink := SaveTransferBatch cs.sink batch now }
        if commitOk then
          ({ cs1 with
              commits := cs1.commits ++ [msgs.map (fun m => m.offset)]
              messagesProcessed := cs1.messagesProcessed + batch.length },
           k + 1, List.replicate k retryDelay)
        else (cs1, k + 1, List.replicate k retryDelay)
    | none =>
        if retryAttempts = 0 then
          if commitOk then
            ({ cs with
                commits := cs.commits ++ [msgs.map (fun m => m.offset)]
                messagesProcessed := cs.messagesProcessed + batch.length },
             0, [])
          else (cs, 0, [])
        else
          ({ cs with messagesFailed := cs.messagesFailed + 1 },
           retryAttempts, List.replicate (retryAttempts - 1) retryDelay)

/-- One worker's loop state: its accumulator of parsed events, the
matching fetched messages, and the shared consumer state. -/
structure WorkerState where
  batch : List LargeTransfer
  kafkaMessages : List KMessage
  consumer : ConsumerState
deriving DecidableEq, Repr

/-- The message branch of processMessages (part_004 lines 394-424): parse;
on failure bump the failed counter and commit that single offset (a
commit error is logged, not acted on), leaving the batch alone; on
success append to the accumulator and flush when it has reached
batchSize. -/
def handleMessage (batchSize retryAttempts : Nat) (retryDelay : Int)
    (saveOk : Nat → Bool) (commitOk : Bool) (st : WorkerState) (msg : KMessage)
    (now : Int) : WorkerState :=
  match parseMessage msg with
  | Except.error _ =>
      { st with
          consumer :=
            { st.consumer with
                messagesFailed := st.consumer.messagesFailed + 1
                commits := st.consumer.commits ++ [[msg.offset]] } }
  | Except.ok transfer =>
      let batch := st.batch ++ [transfer]
      let kmsgs := st.kafkaMessages ++ [msg]
      if batchSize ≤ batch.length then
        let flushed := flushBatch retryAttempts retryDelay saveOk commitOk
          st.consumer batch kmsgs now
        { batch := [], kafkaMessages := [], consumer := flushed.fst }
      else
        { st with batch := batch, kafkaMessages := kmsgs }

/-- Concrete wallet store for evaluation: every balance is 100, no
transactions yet. -/
def demoState : WalletState := { balances := fun _ _ => 100, transactions := [] }

/-- Producer with the default 30000 threshold. -/
def demoProducer : Producer := { threshold := 30000 }

/-- A concrete parsed large transfer. -/
def demoTransfer : LargeTransfer :=
  { userID := 1, type := "deposit", fromCurrency := "USD", toCurrency := "USD"
    amount := 5, timestamp := 0, processedAt := 0, status := "", errorMessage := "" }

/-- A concrete fetched message whose payload does not parse. -/
def demoPoisonMsg : KMessage := { offset := 7, payload := none }

/-- A concrete fetched message with a valid payload. -/
def demoGoodMsg : KMessage :=
  { offset := 8
    payload := some { userID := 1, type := "deposit", fromCurrency := "USD"
                      toCurrency := "USD", amount := 5, timestamp := 0 } }

/-- The initial consumer state over an empty collection. -/
def emptyConsumer : ConsumerState :=
  { sink := { docs := [] }, commits := [], messagesProcessed := 0, messagesFailed := 0 }

/-- Store oracle reporting a serialization failure on the first
invocation only. -/
def serFailFirst : Nat → Bool := fun k => k == 0

/-- Save oracle under which every SaveTransferBatch attempt fails. -/
def neverSave : Nat → Bool := fun _ => false

/-- Every document in a reachable collection carries status processed:
both write paths stamp it before insertion. -/
theorem Reaches_all_processed {s : MongoStore} (h : Reaches s) :
    ∀ d ∈ s.docs, d.status = StatusProcessed := by
  induction h with
  | init =>
      intro d hd
      simp at hd
  | saveOne t now _ ih =>
      intro d hd
      simp only [SaveTransfer, List.mem_append, List.mem_singleton] at hd
      rcases hd with hd | hd
      · exact ih d hd
      · rw [hd]
        rfl
  | saveBatch ts now _ ih =>
      intro d hd
      by_cases hts : ts = []
      · rw [SaveTransferBatch, if_pos hts] at hd
        exact ih d hd
      · rw [SaveTransferBatch, if_neg hts] at hd
        simp only [List.mem_append, List.mem_map] at hd
        rcases hd with hd | ⟨t2, _, ht2⟩
        · exact ih d hd
        · rw [← ht2]
          rfl

/-- C10: every document written by SaveTransfer or SaveTransferBatch is
stamped with status = processed and the write-time processing timestamp,
and since no write path produces status = failed, the total_failed figure
GetStatistics aggregates over any reachable collection is zero. -/
theorem GetStatistics_total_failed_zero (s : MongoStore) (h : Reaches s) :
    (∀ d ∈ s.docs, d.status = StatusProcessed) ∧
    (GetStatistics s).totalFailed = 0 ∧
    (∀ (s2 : MongoStore) (t : LargeTransfer) (now : Int),
        (SaveTransfer s2 t now).docs =
          s2.docs ++ [{ t with processedAt := now, status := StatusProcessed }]) ∧
    (∀ (s2 : MongoStore) (ts : List LargeTransfer) (now : Int), ts ≠ [] →
        (SaveTransferBatch s2 ts now).docs =
          s2.docs ++ ts.map fun t => { t with processedAt := now, status := StatusProcessed }) := by
  refine ⟨Reaches_all_processed h, ?_, ?_, ?_⟩
  · unfold GetStatistics
    by_cases hd : s.docs = []
    · rw [if_pos hd]
    · rw [if_neg hd]
      have hfilter : s.docs.filter (fun d => d.status == StatusFailed) = [] := by
        rw [List.filter_eq_nil_iff]
        intro d hdm
        have hp := Reaches_all_processed h d hdm
        simp [hp, StatusProcessed, StatusFailed]
      simp [hfilter]
  · intro s2 t now
    rfl
  · intro s2 ts now hts
    rw [SaveTransferBatch, if_neg hts]
    rfl

/-- C10 witness: the statistics of a concretely reached one-document
collection report zero failed documents. -/
theorem GetStatistics_total_failed_zero_witness :
    (GetStatistics (SaveTransfer { docs := [] } demoTransfer 3)).totalFailed = 0 :=
  (GetStatistics_total_failed_zero (SaveTransfer { docs := [] } demoTransfer 3)
    (Reaches.saveOne demoTransfer 3 Reaches.init)).2.1

/-- C7 counterexample: with an absent user the source returns the
invalid-credentials error after zero password-hash comparisons - it does
not compare against a sentinel as the claim states. -/
theorem AuthenticateUser_absent_user_skips_hash :
    AuthenticateUser none (fun _ _ => true) "pw" =
      (Except.error "invalid username or password", 0) := by
  rfl

/-- C7 (amended): both failure cases return the identical
invalid-credentials error value, but an absent user is answered early
with zero hash comparisons while a wrong password costs one, so the two
cases are distinguishable by latency. -/
theorem AuthenticateUser_uniform_error (lookupUser : Option User)
    (verify : String → String → Bool) (password : String) :
    (lookupUser = none →
      AuthenticateUser lookupUser verify password =
        (Except.error "invalid username or password", 0)) ∧
    (∀ u, lookupUser = some u → verify u.passwordHash password = false →
      AuthenticateUser lookupUser verify password =
        (Except.error "invalid username or password", 1)) ∧
    (∀ u, lookupUser = some u → verify u.passwordHash password = true →
      AuthenticateUser lookupUser verify password = (Except.ok u, 1)) := by
  refine ⟨?_, ?_, ?_⟩
  · intro hn
    rw [hn]
    rfl
  · intro u hu hv
    rw [hu]
    simp [AuthenticateUser, hv]
  · intro u hu hv
    rw [hu]
    simp [AuthenticateUser, hv]

/-- C7 witness: the amended theorem applied to a present user with a
wrong password. -/
theorem AuthenticateUser_uniform_error_witness :
    AuthenticateUser (some { username := "alice", passwordHash := "h" })
        (fun _ _ => false) "pw" =
      (Except.error "invalid username or password", 1) :=
  (AuthenticateUser_uniform_error (some { username := "alice", passwordHash := "h" })
      (fun _ _ => false) "pw").2.1
    { username := "alice", passwordHash := "h" } rfl rfl

/-- C9: a message whose payload fails to parse bumps the failure counter,
is committed alone so the poison message is skipped, and is never added
to the batch; nothing else in the worker state changes and the worker
keeps going. -/
theorem handleMessage_parse_failure (batchSize retryAttempts : Nat)
    (retryDelay now : Int) (saveOk : Nat → Bool) (commitOk : Bool)
    (st : WorkerState) (msg : KMessage) (h : msg.payload = none) :
    handleMessage batchSize retryAttempts retryDelay saveOk commitOk st msg now =
      { st with consumer := { st.consumer with
          messagesFailed := st.consumer.messagesFailed + 1
          commits := st.consumer.commits ++ [[msg.offset]] } } ∧
    (handleMessage batchSize retryAttempts retryDelay saveOk commitOk st msg now).batch =
      st.batch ∧
    (handleMessage batchSize retryAttempts retryDelay saveOk commitOk st msg now).consumer.sink =
      st.consumer.sink := by
  have hmain : handleMessage batchSize retryAttempts retryDelay saveOk commitOk st msg now =
      { st with consumer := { st.consumer with
          messagesFailed := st.consumer.messagesFailed + 1
          commits := st.consumer.commits ++ [[msg.offset]] } } := by
    unfold handleMessage parseMessage
    rw [h]
  exact ⟨hmain, by rw [hmain], by rw [hmain]⟩

/-- C9 witness: the theorem applied to a concrete poison message. -/
theorem handleMessage_parse_failure_witness :
    handleMessage 100 3 1 neverSave true
        { batch := [], kafkaMessages := [], consumer := emptyConsumer }
        demoPoisonMsg 0 =
      { batch := [], kafkaMessages := []
        consumer := { emptyConsumer with messagesFailed := 1, commits := [[7]] } } :=
  (handleMessage_parse_failure 100 3 1 0 neverSave true
      { batch := [], kafkaMessages := [], consumer := emptyConsumer }
      demoPoisonMsg rfl).1

/-- C8: immediately after Set the cache returns the stored map (returned
as a copy, which in this functional model is the map itself) with the
valid flag; after more than TTL it reports invalid; and GetRate is valid
exactly when the last Set is within TTL and the composite key is
present. -/
theorem RatesCache_ttl_semantics (c : RatesCache) (m : List (String × ℚ))
    (now now2 : Int) (h : 0 < c.ttl) :
    (c.set m now).get now = (some m, true) ∧
    (c.ttl < now2 - now → (c.set m now).get now2 = (none, false)) ∧
    (∀ f t, (c.getRate f t now2).snd = true ↔
      (now2 - c.lastUp ≤ c.ttl ∧ (c.rates.lookup (f ++ "_" ++ t)).isSome = true)) ∧
    (∀ f t r, c.getRate f t now2 = (r, true) →
      c.rates.lookup (f ++ "_" ++ t) = some r) := by
  refine ⟨?_, ?_, ?_, ?_⟩
  · unfold RatesCache.set RatesCache.get
    simp only [sub_self]
    rw [if_neg (by omega)]
  · intro hlt
    unfold RatesCache.set RatesCache.get
    rw [if_pos hlt]
  · intro f t
    unfold RatesCache.getRate
    by_cases httl : c.ttl < now2 - c.lastUp
    · rw [if_pos httl]
      constructor
      · intro hfalse
        exact absurd hfalse (by simp)
      · rintro ⟨h1, -⟩
        exfalso
        omega
    · rw [if_neg httl]
      cases hl : c.rates.lookup (f ++ "_" ++ t) with
      | none => simp
      | some r =>
          simp
          omega
  · intro f t r heq
    unfold RatesCache.getRate at heq
    by_cases httl : c.ttl < now2 - c.lastUp
    · rw [if_pos httl] at heq
      have hsnd := congrArg Prod.snd heq
      simp at hsnd
    · rw [if_neg httl] at heq
      cases hl : c.rates.lookup (f ++ "_" ++ t) with
      | none =>
          rw [hl] at heq
          have hsnd := congrArg Prod.snd heq
          simp at hsnd
      | some r2 =>
          rw [hl] at heq
          have hfst := congrArg Prod.fst heq
          simp at hfst
          rw [hfst]

/-- C8 witness: a cache with TTL 300 set at instant 10 and read at
instant 10. -/
theorem RatesCache_ttl_semantics_witness :
    (RatesCache.set { rates := [], ttl := 300, lastUp := 0 }
        [("USD_EUR", (92 : ℚ)/100)] 10).get 10 =
      (some [("USD_EUR", (92 : ℚ)/100)], true) :=
  (RatesCache_ttl_semantics { rates := [], ttl := 300, lastUp := 0 }
      [("USD_EUR", (92 : ℚ)/100)] 10 10 (by norm_num)).1

/-- C1 counterexample: a concrete successful exchange takes exactly one
FOR UPDATE row lock, on the from-currency row only, so its step list is
not the one the claim describes, which selects both balance rows FOR
UPDATE in ascending currency-code order. -/
theorem ExecuteExchange_locks_only_from_row :
    countSelectsForUpdate
        (ExecuteExchange demoState 1 "USD" "EUR" 10 20 2).snd.steps = 1 ∧
    countSelectsForUpdate (specExchangeSteps 1 "USD" "EUR" 10 20 2) = 2 ∧
    (ExecuteExchange demoState 1 "USD" "EUR" 10 20 2).snd.steps ≠
      specExchangeSteps 1 "USD" "EUR" 10 20 2 := by
  refine ⟨?_, ?_, ?_⟩
  · rfl
  · rfl
  · intro h
    have h4 : (ExecuteExchange demoState 1 "USD" "EUR" 10 20 2).snd.steps.length = 4 := rfl
    have h5 : (specExchangeSteps 1 "USD" "EUR" 10 20 2).length = 5 := rfl
    rw [h, h5] at h4
    exact absurd h4 (by norm_num)

/-- C1 (amended): every exchange runs inside one store transaction at
serializable isolation whose steps are: SELECT the from-currency balance
row FOR UPDATE (only that row is locked), verify sufficiency of the
from-balance, UPDATE both rows, and INSERT one completed Transaction with
kind exchange recording the applied rate; on insufficiency the
transaction rolls back after the select. -/
theorem ExecuteExchange_single_serializable_tx (st : WalletState) (userID : Int)
    (fromCurrency toCurrency : String) (fromAmount toAmount rate : ℚ) :
    (ExecuteExchange st userID fromCurrency toCurrency fromAmount toAmount rate).snd.isolation =
      Isolation.serializable ∧
    (fromAmount ≤ st.balances userID fromCurrency →
      (ExecuteExchange st userID fromCurrency toCurrency fromAmount toAmount rate).snd =
        { isolation := Isolation.serializable
          steps := [SqlStep.selectForUpdate userID fromCurrency,
                    SqlStep.updateBalanceDelta userID fromCurrency (-fromAmount),
                    SqlStep.updateBalanceDelta userID toCurrency toAmount,
                    SqlStep.insertTransaction
                      { userID := userID
                        type := TransactionTypeExchange
                        fromCurrency := fromCurrency
                        toCurrency := toCurrency
                        fromAmount := fromAmount
                        toAmount := toAmount
                        exchangeRate := rate
                        status := TransactionStatusCompleted }]
          committed := true } ∧
      ((ExecuteExchange st userID fromCurrency toCurrency fromAmount toAmount rate).fst.map
          (fun s1 => s1.transactions) =
        Except.ok (st.transactions ++
          [{ userID := userID
             type := TransactionTypeExchange
             fromCurrency := fromCurrency
             toCurrency := toCurrency
             fromAmount := fromAmount
             toAmount := toAmount
             exchangeRate := rate
             status := TransactionStatusCompleted }]))) ∧
    (st.balances userID fromCurrency < fromAmount →
      (ExecuteExchange st userID fromCurrency toCurrency fromAmount toAmount rate).fst =
        Except.error "insufficient funds" ∧
      (ExecuteExchange st userID fromCurrency toCurrency fromAmount toAmount rate).snd.committed =
        false ∧
      (ExecuteExchange st userID fromCurrency toCurrency fromAmount toAmount rate).snd.steps =
        [SqlStep.selectForUpdate userID fromCurrency]) := by
  by_cases hlt : st.balances userID fromCurrency < fromAmount
  · refine ⟨by simp [ExecuteExchange, hlt], ?_, ?_⟩
    · intro hle
      exact absurd hlt (not_lt.mpr hle)
    · intro _
      refine ⟨?_, ?_, ?_⟩ <;> simp [ExecuteExchange, hlt]
  · refine ⟨by simp [ExecuteExchange, hlt], ?_, ?_⟩
    · intro _
      refine ⟨by simp [ExecuteExchange, hlt], ?_⟩
      simp [ExecuteExchange, hlt, Except.map]
    · intro hgt
      exact absurd hgt hlt

/-- C1 witness: the amended theorem applied at a concrete sufficient
exchange: the transaction commits. -/
theorem ExecuteExchange_single_serializable_tx_witness :
    (ExecuteExchange demoState 1 "USD" "EUR" 10 20 2).snd.committed = true := by
  have h := (ExecuteExchange_single_serializable_tx demoState 1 "USD" "EUR" 10 20 2).2.1
    (by decide)
  rw [h.1]

/-- C2 counterexample: a concrete deposit issues its balance UPDATE and
its Transaction INSERT as two separate top-level store statements: no
store call of the run is one transaction containing both, contradicting
the single-store-transaction part of the claim. -/
theorem Deposit_not_single_store_transaction :
    updateAndInsertInOneStoreTransaction
        (Deposit demoState 1 "USD" 50 demoProducer true 0).storeCalls = false ∧
    (Deposit demoState 1 "USD" 50 demoProducer true 0).storeCalls =
      [StoreCall.selectBalance 1 "USD",
       StoreCall.updateBalanceStmt 1 "USD" 150,
       StoreCall.insertTransactionStmt
         { userID := 1, type := "deposit", fromCurrency := "USD", toCurrency := "USD"
           fromAmount := 50, toAmount := 50, exchangeRate := 1, status := "completed" },
       StoreCall.selectAllBalances 1] := by
  constructor
  · rfl
  · unfold Deposit
    rw [if_neg (by norm_num)]
    simp only [demoState]
    norm_num
    exact ⟨rfl, rfl⟩

/-- C2 (amended): for every deposit(u, c, a) with a > 0 and c supported,
the balance update and the audit-record insertion are issued as separate
store statements, not inside one store transaction; afterwards
balance(u,c) has grown by a, every other balance cell is unchanged, and
exactly one new Transaction row exists with type deposit, status
completed and rate 1. -/
theorem Deposit_effects (st : WalletState) (userID : Int) (currency : String)
    (amount : ℚ) (p : Producer) (writerOk : Bool) (now : Int)
    (hpos : 0 < amount)
    (_hcur : currency = "USD" ∨ currency = "EUR" ∨ currency = "RUB") :
    (Deposit st userID currency amount p writerOk now).result =
      Except.ok (getUserBalances (Deposit st userID currency amount p writerOk now).state userID) ∧
    (Deposit st userID currency amount p writerOk now).state.balances userID currency =
      st.balances userID currency + amount ∧
    (∀ c2, c2 ≠ currency →
      (Deposit st userID currency amount p writerOk now).state.balances userID c2 =
        st.balances userID c2) ∧
    (∀ u2, u2 ≠ userID → ∀ c2,
      (Deposit st userID currency amount p writerOk now).state.balances u2 c2 =
        st.balances u2 c2) ∧
    (Deposit st userID currency amount p writerOk now).state.transactions =
      st.transactions ++
        [{ userID := userID, type := TransactionTypeDeposit, fromCurrency := currency
           toCurrency := currency, fromAmount := amount, toAmount := amount
           exchangeRate := 1, status := TransactionStatusCompleted }] ∧
    updateAndInsertInOneStoreTransaction
      (Deposit st userID currency amount p writerOk now).storeCalls = false := by
  have hne : ¬ amount ≤ 0 := not_le.mpr hpos
  unfold Deposit
  rw [if_neg hne]
  refine ⟨rfl, by simp [setBalance], ?_, ?_, rfl, rfl⟩
  · intro c2 hc2
    simp [setBalance, hc2]
  · intro u2 hu2 c2
    simp [setBalance, hu2]

/-- C2 witness: the amended theorem applied at a concrete deposit. -/
theorem Deposit_effects_witness :
    (Deposit demoState 1 "USD" 50 demoProducer true 0).state.balances 1 "USD" = 150 := by
  have h := (Deposit_effects demoState 1 "USD" 50 demoProducer true 0
    (by norm_num) (Or.inl rfl)).2.1
  rw [h]
  norm_num [demoState]

/-- C3: with a > 0, a withdrawal succeeds exactly when a is at most the
current balance; on success the balance drops by a and one completed
withdraw Transaction row is appended; when a exceeds the balance the call
fails with insufficient funds and the store state is unchanged. -/
theorem Withdraw_succeeds_iff_sufficient (st : WalletState) (userID : Int)
    (currency : String) (amount : ℚ) (p : Producer) (writerOk : Bool) (now : Int)
    (hpos : 0 < amount) :
    ((∃ ub, (Withdraw st userID currency amount p writerOk now).result = Except.ok ub) ↔
      amount ≤ st.balances userID currency) ∧
    (amount ≤ st.balances userID currency →
      (Withdraw st userID currency amount p writerOk now).state.balances userID currency =
        st.balances userID currency - amount ∧
      (∀ c2, c2 ≠ currency →
        (Withdraw st userID currency amount p writerOk now).state.balances userID c2 =
          st.balances userID c2) ∧
      (Withdraw st userID currency amount p writerOk now).state.transactions =
        st.transactions ++
          [{ userID := userID, type := TransactionTypeWithdraw, fromCurrency := currency
             toCurrency := currency, fromAmount := amount, toAmount := amount
             exchangeRate := 1, status := TransactionStatusCompleted }]) ∧
    (st.balances userID currency < amount →
      (Withdraw st userID currency amount p writerOk now).result =
        Except.error "insufficient funds" ∧
      (Withdraw st userID currency amount p writerOk now).state = st) := by
  have hne : ¬ amount ≤ 0 := not_le.mpr hpos
  unfold Withdraw
  rw [if_neg hne]
  by_cases hlt : st.balances userID currency < amount
  · rw [if_pos hlt]
    refine ⟨?_, ?_, ?_⟩
    · constructor
      · rintro ⟨ub, hok⟩
        simp at hok
      · intro hle
        exact absurd hlt (not_lt.mpr hle)
    · intro hle
      exact absurd hlt (not_lt.mpr hle)
    · intro _
      exact ⟨rfl, rfl⟩
  · rw [if_neg hlt]
    refine ⟨?_, ?_, ?_⟩
    · constructor
      · intro _
        exact not_lt.mp hlt
      · intro _
        exact ⟨_, rfl⟩
    · intro _
      refine ⟨by simp [setBalance], ?_, rfl⟩
      intro c2 hc2
      simp [setBalance, hc2]
    · intro hgt
      exact absurd hgt hlt

/-- C3 witness: the theorem applied at a concrete sufficient and a
concrete insufficient withdrawal. -/
theorem Withdraw_succeeds_iff_sufficient_witness :
    ((∃ ub, (Withdraw demoState 1 "EUR" 1000 demoProducer true 0).result = Except.ok ub) ↔
      (1000 : ℚ) ≤ demoState.balances 1 "EUR") :=
  (Withdraw_succeeds_iff_sufficient demoState 1 "EUR" 1000 demoProducer true 0
    (by norm_num)).1

/-- C4 counterexample: with a store oracle that reports a serialization
failure on the first invocation and would succeed on the second, a
concrete exchange surfaces the error to the caller after a single store
attempt - the engine performs no retry, so the error is not hidden. -/
theorem ExchangeCurrency_no_retry_counterexample :
    (ExchangeCurrency demoState 1 "USD" "EUR" 10 2 serFailFirst demoProducer true 0).result =
      Except.error "failed to execute exchange: serialization failure" ∧
    (ExchangeCurrency demoState 1 "USD" "EUR" 10 2 serFailFirst demoProducer true 0).storeAttempts =
      1 ∧
    serFailFirst 1 = false := by
  exact ⟨rfl, rfl, rfl⟩

/-- C4 (amended): the engine invokes the store at most once per exchange
call and performs no retry: a serialization failure reported on that
single attempt is surfaced to the caller immediately, leaving the store
state unchanged. -/
theorem ExchangeCurrency_single_attempt (st : WalletState) (userID : Int)
    (fromCurrency toCurrency : String) (amount rate : ℚ) (serFail : Nat → Bool)
    (p : Producer) (writerOk : Bool) (now : Int) :
    (ExchangeCurrency st userID fromCurrency toCurrency amount rate serFail p
      writerOk now).storeAttempts ≤ 1 ∧
    (0 < amount → fromCurrency ≠ toCurrency → serFail 0 = true →
      (ExchangeCurrency st userID fromCurrency toCurrency amount rate serFail p
          writerOk now).result =
        Except.error "failed to execute exchange: serialization failure" ∧
      (ExchangeCurrency st userID fromCurrency toCurrency amount rate serFail p
        writerOk now).state = st ∧
      (ExchangeCurrency st userID fromCurrency toCurrency amount rate serFail p
        writerOk now).storeAttempts = 1) := by
  constructor
  · unfold ExchangeCurrency
    by_cases h1 : amount ≤ 0
    · rw [if_pos h1]
      exact Nat.zero_le 1
    · rw [if_neg h1]
      by_cases h2 : fromCurrency = toCurrency
      · rw [if_pos h2]
        exact Nat.zero_le 1
      · rw [if_neg h2]
        by_cases h3 : serFail 0 = true
        · rw [if_pos h3]
        · rw [if_neg h3]
          rcases hE : ExecuteExchange st userID fromCurrency toCurrency amount
            (rate * amount) rate with ⟨res, run⟩
          cases res with
          | error e => exact le_refl 1
          | ok st1 => exact le_refl 1
  · intro h0 hneq hser
    have h1 : ¬ amount ≤ 0 := not_le.mpr h0
    unfold ExchangeCurrency
    rw [if_neg h1, if_neg hneq, if_pos hser]
    exact ⟨rfl, rfl, rfl⟩

/-- C4 witness: the amended theorem applied at a concrete serialization
failure. -/
theorem ExchangeCurrency_single_attempt_witness :
    (ExchangeCurrency demoState 1 "USD" "EUR" 10 2 serFailFirst demoProducer
      true 0).storeAttempts = 1 :=
  ((ExchangeCurrency_single_attempt demoState 1 "USD" "EUR" 10 2 serFailFirst
      demoProducer true 0).2 (by norm_num) (by decide) rfl).2.2

/-- A first success found within the attempt budget lies within it. -/
theorem firstSuccessFrom_lt (saveOk : Nat → Bool) :
    ∀ (n s k : Nat), firstSuccessFrom saveOk s n = some k → k < s + n := by
  intro n
  induction n with
  | zero =>
      intro s k h
      simp [firstSuccessFrom] at h
  | succ m ih =>
      intro s k h
      rw [firstSuccessFrom] at h
      by_cases hs : saveOk s = true
      · rw [if_pos hs] at h
        have hk := Option.some.inj h
        omega
      · rw [if_neg hs] at h
        have := ih (s + 1) k h
        omega

/-- C5 counterexample: when every SaveTransferBatch attempt fails, a
concrete flush increments the failure counter and drops the batch but
issues no offset commit at all - the covered offsets are not advanced,
contrary to the claim. -/
theorem flushBatch_exhaustion_does_not_commit :
    (flushBatch 3 1 neverSave true emptyConsumer [demoTransfer]
      [demoPoisonMsg] 0).fst.commits = [] ∧
    (flushBatch 3 1 neverSave true emptyConsumer [demoTransfer]
      [demoPoisonMsg] 0).fst.messagesFailed = 1 ∧
    (flushBatch 3 1 neverSave true emptyConsumer [demoTransfer]
      [demoPoisonMsg] 0).fst.sink.docs = [] ∧
    (flushBatch 3 1 neverSave true emptyConsumer [demoTransfer]
      [demoPoisonMsg] 0).snd.fst = 3 := by
  exact ⟨rfl, rfl, rfl, rfl⟩

/-- C5 (amended): the batch insert is retried up to retryAttempts times
with the fixed delay; on the first successful attempt the batch is saved
once and all covered offsets are committed in one call; when every
attempt fails the failure counter is incremented and the batch is dropped
without committing the covered offsets (they are not advanced; the
messages can be redelivered after a restart). -/
theorem flushBatch_retry_semantics (retryAttempts : Nat) (retryDelay : Int)
    (saveOk : Nat → Bool) (commitOk : Bool) (cs : ConsumerState)
    (batch : List LargeTransfer) (msgs : List KMessage) (now : Int)
    (hb : batch ≠ []) (hR : 0 < retryAttempts) :
    (∀ k, firstSuccessFrom saveOk 0 retryAttempts = some k →
      (flushBatch retryAttempts retryDelay saveOk commitOk cs batch msgs now).snd.fst =
        k + 1 ∧
      k + 1 ≤ retryAttempts ∧
      (flushBatch retryAttempts retryDelay saveOk commitOk cs batch msgs now).snd.snd =
        List.replicate k retryDelay ∧
      (flushBatch retryAttempts retryDelay saveOk commitOk cs batch msgs now).fst.sink =
        SaveTransferBatch cs.sink batch now ∧
      (commitOk = true →
        (flushBatch retryAttempts retryDelay saveOk commitOk cs batch msgs now).fst.commits =
          cs.commits ++ [msgs.map (fun m => m.offset)] ∧
        (flushBatch retryAttempts retryDelay saveOk commitOk cs batch
          msgs now).fst.messagesProcessed = cs.messagesProcessed + batch.length) ∧
      (flushBatch retryAttempts retryDelay saveOk commitOk cs batch
        msgs now).fst.messagesFailed = cs.messagesFailed) ∧
    (firstSuccessFrom saveOk 0 retryAttempts = none →
      (flushBatch retryAttempts retryDelay saveOk commitOk cs batch msgs now).fst =
        { cs with messagesFailed := cs.messagesFailed + 1 } ∧
      (flushBatch retryAttempts retryDelay saveOk commitOk cs batch msgs now).snd.fst =
        retryAttempts ∧
      (flushBatch retryAttempts retryDelay saveOk commitOk cs batch msgs now).snd.snd =
        List.replicate (retryAttempts - 1) retryDelay) := by
  constructor
  · intro k hk
    have hkR : k < retryAttempts := by
      have := firstSuccessFrom_lt saveOk retryAttempts 0 k hk
      omega
    cases commitOk with
    | true =>
        unfold flushBatch
        rw [if_neg hb, hk]
        refine ⟨rfl, by omega, rfl, rfl, ?_, rfl⟩
        intro _
        exact ⟨rfl, rfl⟩
    | false =>
        unfold flushBatch
        rw [if_neg hb, hk]
        refine ⟨rfl, by omega, rfl, rfl, ?_, rfl⟩
        intro hcc
        exact absurd hcc (by simp)
  · intro hnone
    obtain ⟨n, rfl⟩ : ∃ n, retryAttempts = n + 1 := ⟨retryAttempts - 1, by omega⟩
    unfold flushBatch
    rw [if_neg hb, hnone]
    exact ⟨rfl, rfl, rfl⟩

/-- C5 witness: a concrete flush whose second save attempt succeeds
commits the covered offset in one call. -/
theorem flushBatch_retry_semantics_witness :
    (flushBatch 3 1 (fun k => k == 1) true emptyConsumer [demoTransfer]
      [demoGoodMsg] 0).fst.commits = [[8]] :=
  ((flushBatch_retry_semantics 3 1 (fun k => k == 1) true emptyConsumer
      [demoTransfer] [demoGoodMsg] 0 (by simp) (by norm_num)).1 1 rfl).2.2.2.2.1 rfl |>.1

/-- C6: a money-moving event is written to the log exactly when its
amount reaches the producer threshold (compared in from-currency units)
and the broker write succeeds; every written message is keyed
"user_<id>"; below-threshold events are dropped silently with no error;
and each of deposit, withdraw and exchange publishes through exactly
this filter with the operation amount. -/
theorem kafka_threshold_filter (st : WalletState) (userID : Int)
    (currency fromCurrency toCurrency transferType : String) (amount rate : ℚ)
    (p : Producer) (writerOk : Bool) (serFail : Nat → Bool) (now : Int) :
    ((SendLargeTransferNotification p writerOk userID transferType fromCurrency
        toCurrency amount now).fst.isSome = true ↔
      (p.threshold ≤ amount ∧ writerOk = true)) ∧
    (∀ m, (SendLargeTransferNotification p writerOk userID transferType fromCurrency
        toCurrency amount now).fst = some m →
      m.key = "user_" ++ toString userID ∧ m.userID = userID ∧ m.amount = amount) ∧
    (amount < p.threshold →
      SendLargeTransferNotification p writerOk userID transferType fromCurrency
        toCurrency amount now = (none, none)) ∧
    (0 < amount →
      (Deposit st userID currency amount p writerOk now).kafka =
        (SendLargeTransferNotification p writerOk userID "deposit" currency currency
          amount now).fst.toList) ∧
    (0 < amount → amount ≤ st.balances userID currency →
      (Withdraw st userID currency amount p writerOk now).kafka =
        (SendLargeTransferNotification p writerOk userID "withdraw" currency currency
          amount now).fst.toList) ∧
    (0 < amount → fromCurrency ≠ toCurrency → serFail 0 = false →
      amount ≤ st.balances userID fromCurrency →
      (ExchangeCurrency st userID fromCurrency toCurrency amount rate serFail p
        writerOk now).kafka =
        (SendLargeTransferNotification p writerOk userID "exchange" fromCurrency
          toCurrency amount now).fst.toList) := by
  refine ⟨?_, ?_, ?_, ?_, ?_, ?_⟩
  · unfold SendLargeTransferNotification
    by_cases ht : amount < p.threshold
    · rw [if_pos ht]
      simp only [Option.isSome_none]
      constructor
      · intro hfalse
        exact absurd hfalse (by simp)
      · rintro ⟨h1, -⟩
        exact absurd h1 (not_le.mpr ht)
    · rw [if_neg ht]
      by_cases hw : writerOk = true
      · rw [if_pos hw]
        simp [hw, not_lt.mp ht]
      · rw [if_neg hw]
        simp [hw]
  · intro m hm
    unfold SendLargeTransferNotification at hm
    by_cases ht : amount < p.threshold
    · rw [if_pos ht] at hm
      exact absurd hm (by simp)
    · rw [if_neg ht] at hm
      by_cases hw : writerOk = true
      · rw [if_pos hw] at hm
        have hmm := Option.some.inj hm
        rw [← hmm]
        exact ⟨rfl, rfl, rfl⟩
      · rw [if_neg hw] at hm
        exact absurd hm (by simp)
  · intro ht
    unfold SendLargeTransferNotification
    rw [if_pos ht]
  · intro h0
    unfold Deposit
    rw [if_neg (not_le.mpr h0)]
  · intro h0 hle
    unfold Withdraw
    rw [if_neg (not_le.mpr h0), if_neg (not_lt.mpr hle)]
  · intro h0 hneq hser hle
    have hnlt : ¬ st.balances userID fromCurrency < amount := not_lt.mpr hle
    unfold ExchangeCurrency ExecuteExchange
    rw [if_neg (not_le.mpr h0), if_neg hneq, if_neg (by simp [hser]), if_neg hnlt]

/-- C6 witness: the theorem applied to a concrete below-threshold
deposit: its Kafka output is what the filter produces. -/
theorem kafka_threshold_filter_witness :
    (Deposit demoState 1 "USD" 50 demoProducer true 0).kafka =
      (SendLargeTransferNotification demoProducer true 1 "deposit" "USD" "USD"
        50 0).fst.toList :=
  (kafka_threshold_filter demoState 1 "USD" "USD" "EUR" "deposit" 50 2 demoProducer
    true serFailFirst 0).2.2.2.1 (by norm_num)

end GW
